import Mathlib

/-!
Shallow embedding of `CommandExecEngine.cc` from the multiUAV-simulation
repository: the six command execution engine variants (Waypoint, Takeoff,
HoldPosition, Charge, Exchange, Idle), their lifecycle methods and the
queue-manipulating exit action of the Exchange engine.

Modelling conventions:
- C++ `double` values are modelled as `ℚ`.
- Calls into libm (`sqrt`, `atan2` with the degree conversion) and into the
  external consumption or speed model of the node are modelled as components
  of an environment record `Env`; the engine code treats them as black boxes.
- A path that throws `cRuntimeError`, fails an `ASSERT`, or dereferences an
  absent command pointer is modelled as `Option.none`.
- The simulation clock `simTime()` is passed explicitly as a `ℚ` argument to
  the methods that read it.
-/

set_option autoImplicit false

/-- The 1e-10 epsilon used throughout `CommandExecEngine.cc`. -/
def eps : ℚ := 1 / 10 ^ 10

/-- Battery sub-entity of the node (external collaborator). -/
structure Battery where
  remaining : ℚ
  capacity : ℚ
  deriving DecidableEq

/-- Modelled from the spec: the battery interface exposes `isFull()`;
the battery implementation is outside `CommandExecEngine.cc`. -/
def Battery.isFull (b : Battery) : Bool :=
  decide (b.remaining = b.capacity)

/-- Coordinates of a charging node, as returned by `UAVNode::findNearestCN`. -/
structure ChargingNodePos where
  x : ℚ
  y : ℚ
  z : ℚ
  deriving DecidableEq

/-- WaypointCommand: target coordinates. -/
structure WaypointCommand where
  x : ℚ
  y : ℚ
  z : ℚ
  deriving DecidableEq

/-- TakeoffCommand: target altitude. -/
structure TakeoffCommand where
  z : ℚ
  deriving DecidableEq

/-- HoldPositionCommand: position plus hold duration in seconds. -/
structure HoldPositionCommand where
  x : ℚ
  y : ℚ
  z : ℚ
  holdSeconds : ℚ
  deriving DecidableEq

/-- ChargeCommand: reference to a charging node. -/
structure ChargeCommand where
  cn : ChargingNodePos
  deriving DecidableEq

/-- ExchangeCommand: recharge-request flag and peer knowledge. -/
structure ExchangeCommand where
  rechargeRequested : Bool
  otherNodeKnown : Bool
  deriving DecidableEq

/-- IdleCommand: no parameters. -/
structure IdleCommand where
  deriving DecidableEq

/-- State of a `WaypointCEE`: bound command, origin and target coordinates,
derived kinematics, drawn consumption rate and the bookkeeping flags. -/
structure WaypointCEE where
  command : Option WaypointCommand
  x0 : ℚ
  y0 : ℚ
  z0 : ℚ
  x1 : ℚ
  y1 : ℚ
  z1 : ℚ
  yaw : ℚ
  pitch : ℚ
  climbAngle : ℚ
  speed : ℚ
  consumptionPerSecond : ℚ
  commandCompleted : Bool
  partOfMission : Bool
  noReplacementNeeded : Bool
  deriving DecidableEq

/-- State of a `TakeoffCEE`. -/
structure TakeoffCEE where
  command : Option TakeoffCommand
  x0 : ℚ
  y0 : ℚ
  z0 : ℚ
  x1 : ℚ
  y1 : ℚ
  z1 : ℚ
  pitch : ℚ
  climbAngle : ℚ
  speed : ℚ
  consumptionPerSecond : ℚ
  commandCompleted : Bool
  partOfMission : Bool
  noReplacementNeeded : Bool
  deriving DecidableEq

/-- State of a `HoldPositionCEE`: adds the absolute deadline
`holdPositionTill`. -/
structure HoldPositionCEE where
  command : Option HoldPositionCommand
  x0 : ℚ
  y0 : ℚ
  z0 : ℚ
  x1 : ℚ
  y1 : ℚ
  z1 : ℚ
  holdPositionTill : ℚ
  consumptionPerSecond : ℚ
  commandCompleted : Bool
  partOfMission : Bool
  noReplacementNeeded : Bool
  deriving DecidableEq

/-- State of a `ChargeCEE`: adds the stored-energy snapshot taken at
activation. The `active` latch is Modelled from the spec: `isActive()` is
declared in the header and reports whether the engine entered the Active
state via `setNodeParameters`. -/
structure ChargeCEE where
  command : Option ChargeCommand
  x0 : ℚ
  y0 : ℚ
  z0 : ℚ
  x1 : ℚ
  y1 : ℚ
  z1 : ℚ
  active : Bool
  batteryRemainingExecutionStart : ℚ
  commandCompleted : Bool
  partOfMission : Bool
  noReplacementNeeded : Bool
  deriving DecidableEq

/-- State of an `ExchangeCEE`. -/
structure ExchangeCEE where
  command : Option ExchangeCommand
  x0 : ℚ
  y0 : ℚ
  z0 : ℚ
  x1 : ℚ
  y1 : ℚ
  z1 : ℚ
  consumptionPerSecond : ℚ
  commandCompleted : Bool
  partOfMission : Bool
  noReplacementNeeded : Bool
  deriving DecidableEq

/-- State of an `IdleCEE`. -/
structure IdleCEE where
  command : Option IdleCommand
  x0 : ℚ
  y0 : ℚ
  z0 : ℚ
  x1 : ℚ
  y1 : ℚ
  z1 : ℚ
  consumptionPerSecond : ℚ
  commandCompleted : Bool
  partOfMission : Bool
  noReplacementNeeded : Bool
  deriving DecidableEq

/-- Closed sum of the engine variants, used for the per-node queue
`node->cees` of pending engines. -/
inductive CEE where
  | waypoint : WaypointCEE → CEE
  | takeoff : TakeoffCEE → CEE
  | holdPosition : HoldPositionCEE → CEE
  | charge : ChargeCEE → CEE
  | exchange : ExchangeCEE → CEE
  | idle : IdleCEE → CEE
  deriving DecidableEq

/-- The UAV node (external collaborator): pose, kinematic fields, battery,
the queue of pending engines and the active mission id. -/
structure Node where
  x : ℚ
  y : ℚ
  z : ℚ
  yaw : ℚ
  pitch : ℚ
  climbAngle : ℚ
  speed : ℚ
  battery : Battery
  cees : List CEE
  missionId : ℤ
  deriving DecidableEq

/-- Environment of external pure functions consumed by the engines:
libm (with the radian-to-degree conversions folded in), the node speed
lookup, the consumption model, the stochastic consumption draw (fixed for
the run, per the deterministic-replay discipline) and the nearest charging
node lookup. -/
structure Env where
  sqrt : ℚ → ℚ
  atan2Deg : ℚ → ℚ → ℚ
  getSpeed : ℚ → ℚ
  getMovementConsumption : ℚ → ℚ → ℤ → ℚ
  getHoverConsumption : ℚ → ℤ → ℚ
  predictNormConsumptionRandom : ℚ
  nearestCN : ℚ → ℚ → ℚ → ChargingNodePos

/-! ## WaypointCEE methods -/

/-- `WaypointCEE::WaypointCEE(node, command)`: bind node and command, copy the
node position into the origin and the command target into the destination.
Remaining fields keep their construction defaults (Modelled from the spec:
the flag defaults are declared in the header; the exit action of Exchange
overwrites them explicitly). -/
def WaypointCEE.construct (node : Node) (cmd : WaypointCommand) : WaypointCEE :=
  { command := some cmd
    x0 := node.x, y0 := node.y, z0 := node.z
    x1 := cmd.x, y1 := cmd.y, z1 := cmd.z
    yaw := 0, pitch := 0, climbAngle := 0, speed := 0
    consumptionPerSecond := 0
    commandCompleted := false
    partOfMission := true
    noReplacementNeeded := false }

/-- `WaypointCEE::isCommandCompleted`: latch, or Manhattan-style sum of the
per-axis distances to the target below the epsilon. -/
def WaypointCEE.isCommandCompleted (cee : WaypointCEE) (node : Node) : Bool :=
  cee.commandCompleted
    || decide (|cee.x1 - node.x| + |cee.y1 - node.y| + |cee.z1 - node.z| < eps)

/-- `WaypointCEE::isCommandCompleted` together with the post-call state: the
method body contains no assignment, so both the engine and the node come back
unchanged. -/
def WaypointCEE.isCommandCompletedRun (cee : WaypointCEE) (node : Node) :
    Bool × WaypointCEE × Node :=
  (cee.isCommandCompleted node, cee, node)

/-- `WaypointCEE::initializeCEE`: throws when the command is missing;
otherwise snaps sub-epsilon axis displacements to zero, derives yaw
(normalized to [0,360)), climb angle, pitch and speed, and draws the
consumption rate. -/
def WaypointCEE.initializeCEE (env : Env) (cee : WaypointCEE) :
    Option WaypointCEE :=
  match cee.command with
  | none => none
  | some _ =>
    let dx0 := cee.x1 - cee.x0
    let dy0 := cee.y1 - cee.y0
    let dz0 := cee.z1 - cee.z0
    let dx := if |dx0| < eps then 0 else dx0
    let dy := if |dy0| < eps then 0 else dy0
    let dz := if |dz0| < eps then 0 else dz0
    let yaw0 := env.atan2Deg dy dx
    let yaw1 := if yaw0 < 0 then yaw0 + 360 else yaw0
    let climbAngle1 := env.atan2Deg dz (env.sqrt (dx * dx + dy * dy))
    some { cee with
            yaw := yaw1
            climbAngle := climbAngle1
            pitch := -climbAngle1
            speed := env.getSpeed climbAngle1
            consumptionPerSecond := env.predictNormConsumptionRandom }

/-- The straight-line origin-to-target distance
`sqrt(dx*dx + dy*dy + dz*dz)` computed identically in
`WaypointCEE::getOverallDuration` and `WaypointCEE::getProbableConsumption`. -/
def WaypointCEE.legDistance (env : Env) (cee : WaypointCEE) : ℚ :=
  let dx := cee.x1 - cee.x0
  let dy := cee.y1 - cee.y0
  let dz := cee.z1 - cee.z0
  env.sqrt (dx * dx + dy * dy + dz * dz)

/-- The forecast duration `distance / speed` of the waypoint leg. -/
def WaypointCEE.legDuration (env : Env) (cee : WaypointCEE) : ℚ :=
  cee.legDistance env / cee.speed

/-- The movement-consumption figure the model returns for the waypoint leg. -/
def WaypointCEE.legConsumption (env : Env) (cee : WaypointCEE)
    (fromMethod : ℤ) : ℚ :=
  env.getMovementConsumption cee.climbAngle (cee.legDistance env / cee.speed)
    fromMethod

/-- `WaypointCEE::getOverallDuration`: straight-line distance (clamped to 0
below the epsilon) divided by the resolved speed. -/
def WaypointCEE.getOverallDuration (env : Env) (cee : WaypointCEE) : ℚ :=
  let distance0 := cee.legDistance env
  let distance := if distance0 < eps then 0 else distance0
  distance / cee.speed

/-- `WaypointCEE::getProbableConsumption`: returns 0 outright when the
origin-to-target distance is below the epsilon; otherwise consults the
movement consumption model, asserts `consumption > 0` and
`consumption / duration < 1000`, and returns the normalized rate or the
total. A failed assertion stops the call path (`none`). -/
def WaypointCEE.getProbableConsumption (env : Env) (cee : WaypointCEE)
    (normalized : Bool) (fromMethod : ℤ) : Option ℚ :=
  let distance := cee.legDistance env
  if distance < eps then
    some 0
  else
    let duration := distance / cee.speed
    let completeConsumption := cee.legConsumption env fromMethod
    if 0 < completeConsumption ∧ completeConsumption / duration < 1000 then
      if normalized then some (completeConsumption / duration)
      else some completeConsumption
    else
      none

/-! ## TakeoffCEE methods -/

/-- `TakeoffCEE::isCommandCompleted`: vertical distance to the target below
the epsilon; the `commandCompleted` latch is not consulted by this variant. -/
def TakeoffCEE.isCommandCompleted (cee : TakeoffCEE) (node : Node) : Bool :=
  decide (|cee.z1 - node.z| < eps)

/-- `TakeoffCEE::isCommandCompleted` with the (unchanged) post-call state. -/
def TakeoffCEE.isCommandCompletedRun (cee : TakeoffCEE) (node : Node) :
    Bool × TakeoffCEE × Node :=
  (cee.isCommandCompleted node, cee, node)

/-- `TakeoffCEE::initializeCEE`: pitch 0, climb angle +90 when `z1 > z0` and
-90 otherwise, speed looked up for that climb angle, consumption rate drawn.
No check of the bound command is performed. -/
def TakeoffCEE.initializeCEE (env : Env) (cee : TakeoffCEE) :
    Option TakeoffCEE :=
  let climbAngle1 : ℚ := if cee.z0 < cee.z1 then 90 else -90
  some { cee with
          pitch := 0
          climbAngle := climbAngle1
          speed := env.getSpeed climbAngle1
          consumptionPerSecond := env.predictNormConsumptionRandom }

/-- The takeoff leg duration `fabs(z1 - z0) / speed` computed identically in
`TakeoffCEE::getOverallDuration` and `TakeoffCEE::getProbableConsumption`. -/
def TakeoffCEE.legDuration (cee : TakeoffCEE) : ℚ :=
  |cee.z1 - cee.z0| / cee.speed

/-- The movement-consumption figure the model returns for the takeoff leg. -/
def TakeoffCEE.legConsumption (env : Env) (cee : TakeoffCEE)
    (fromMethod : ℤ) : ℚ :=
  env.getMovementConsumption cee.climbAngle cee.legDuration fromMethod

/-- `TakeoffCEE::getOverallDuration`: vertical distance over speed. -/
def TakeoffCEE.getOverallDuration (cee : TakeoffCEE) : ℚ :=
  cee.legDuration

/-- `TakeoffCEE::getProbableConsumption`: movement consumption over the
vertical leg, with the assertion `consumption >= 0` and
`consumption / duration < 1000`. -/
def TakeoffCEE.getProbableConsumption (env : Env) (cee : TakeoffCEE)
    (normalized : Bool) (fromMethod : ℤ) : Option ℚ :=
  let duration := cee.legDuration
  let completeConsumption := cee.legConsumption env fromMethod
  if 0 ≤ completeConsumption ∧ completeConsumption / duration < 1000 then
    if normalized then some (completeConsumption / duration)
    else some completeConsumption
  else
    none

/-! ## HoldPositionCEE methods -/

/-- `HoldPositionCEE::isCommandCompleted` at clock value `t`: throws when the
clock has passed the deadline (checked before the latch), otherwise true
exactly when the latch is set or the clock equals the deadline. -/
def HoldPositionCEE.isCommandCompleted (cee : HoldPositionCEE) (t : ℚ) :
    Option Bool :=
  if cee.holdPositionTill < t then none
  else some (cee.commandCompleted || decide (t = cee.holdPositionTill))

/-- `HoldPositionCEE::isCommandCompleted` with the (unchanged) post-call
engine state; the thrown path also leaves the state untouched. -/
def HoldPositionCEE.isCommandCompletedRun (cee : HoldPositionCEE) (t : ℚ) :
    Option Bool × HoldPositionCEE :=
  (cee.isCommandCompleted t, cee)

/-- `HoldPositionCEE::initializeCEE` at clock value `t`: dereferences the
bound command for the hold duration (an absent command stops the call),
sets the absolute deadline and draws the consumption rate. -/
def HoldPositionCEE.initializeCEE (env : Env) (t : ℚ)
    (cee : HoldPositionCEE) : Option HoldPositionCEE :=
  match cee.command with
  | none => none
  | some cmd =>
    some { cee with
            holdPositionTill := t + cmd.holdSeconds
            consumptionPerSecond := env.predictNormConsumptionRandom }

/-- `HoldPositionCEE::getOverallDuration`: the hold duration read back from
the bound command (an absent command stops the call). -/
def HoldPositionCEE.getOverallDuration (cee : HoldPositionCEE) : Option ℚ :=
  match cee.command with
  | none => none
  | some cmd => some cmd.holdSeconds

/-- `HoldPositionCEE::getRemainingTime` at clock value `t`: deadline minus
current time. -/
def HoldPositionCEE.getRemainingTime (cee : HoldPositionCEE) (t : ℚ) : ℚ :=
  cee.holdPositionTill - t

/-- `HoldPositionCEE::getProbableConsumption`: hover consumption over the
hold duration, with the assertion `consumption >= 0` and
`consumption / duration < 1000`. -/
def HoldPositionCEE.getProbableConsumption (env : Env) (cee : HoldPositionCEE)
    (normalized : Bool) (fromMethod : ℤ) : Option ℚ :=
  match cee.command with
  | none => none
  | some cmd =>
    let duration := cmd.holdSeconds
    let completeConsumption := env.getHoverConsumption duration fromMethod
    if 0 ≤ completeConsumption ∧ completeConsumption / duration < 1000 then
      if normalized then some (completeConsumption / duration)
      else some completeConsumption
    else
      none

/-! ## ChargeCEE methods -/

/-- `ChargeCEE::ChargeCEE(node, command)`: origin and target both set to the
current node position. -/
def ChargeCEE.construct (node : Node) (cmd : ChargeCommand) : ChargeCEE :=
  { command := some cmd
    x0 := node.x, y0 := node.y, z0 := node.z
    x1 := node.x, y1 := node.y, z1 := node.z
    active := false
    batteryRemainingExecutionStart := 0
    commandCompleted := false
    partOfMission := true
    noReplacementNeeded := false }

/-- `ChargeCEE::isCommandCompleted`: latch, or the battery reports full. -/
def ChargeCEE.isCommandCompleted (cee : ChargeCEE) (node : Node) : Bool :=
  cee.commandCompleted || node.battery.isFull

/-- `ChargeCEE::isCommandCompleted` with the (unchanged) post-call state. -/
def ChargeCEE.isCommandCompletedRun (cee : ChargeCEE) (node : Node) :
    Bool × ChargeCEE × Node :=
  (cee.isCommandCompleted node, cee, node)

/-- `ChargeCEE::initializeCEE`: empty body. -/
def ChargeCEE.initializeCEE (_env : Env) (cee : ChargeCEE) : Option ChargeCEE :=
  some cee

/-- `ChargeCEE::updateState`: empty body, every field of the engine and of
the node is left exactly as it was. -/
def ChargeCEE.updateState (cee : ChargeCEE) (node : Node) (_stepSize : ℚ) :
    ChargeCEE × Node :=
  (cee, node)

/-- `ChargeCEE::getOverallDuration`: unconditionally throws
`ChargeCEE has no determined ending time`. -/
def ChargeCEE.getOverallDuration (_cee : ChargeCEE) : Option ℚ :=
  none

/-- `ChargeCEE::getRemainingTime`: unconditionally throws. -/
def ChargeCEE.getRemainingTime (_cee : ChargeCEE) : Option ℚ :=
  none

/-- `ChargeCEE::getProbableConsumption`: always 0. -/
def ChargeCEE.getProbableConsumption (_cee : ChargeCEE)
    (_normalized : Bool) (_fromMethod : ℤ) : Option ℚ :=
  some 0

/-- `ChargeCEE::getConsumptionTotal`: throws when the engine was never
activated; otherwise asserts that the remaining energy strictly exceeds the
activation snapshot and returns the negated difference. -/
def ChargeCEE.getConsumptionTotal (cee : ChargeCEE) (node : Node) : Option ℚ :=
  if cee.active = false then none
  else
    let difference := node.battery.remaining - cee.batteryRemainingExecutionStart
    if 0 < difference then some (-difference)
    else none

/-! ## ExchangeCEE methods -/

/-- `ExchangeCEE::isCommandCompleted`: the latch only. -/
def ExchangeCEE.isCommandCompleted (cee : ExchangeCEE) : Bool :=
  cee.commandCompleted

/-- `ExchangeCEE::isCommandCompleted` with the (unchanged) post-call state. -/
def ExchangeCEE.isCommandCompletedRun (cee : ExchangeCEE) :
    Bool × ExchangeCEE :=
  (cee.isCommandCompleted, cee)

/-- `ExchangeCEE::initializeCEE`: draws the consumption rate; no check of the
bound command. -/
def ExchangeCEE.initializeCEE (env : Env) (cee : ExchangeCEE) :
    Option ExchangeCEE :=
  some { cee with consumptionPerSecond := env.predictNormConsumptionRandom }

/-- `ExchangeCEE::getOverallDuration`: unconditionally throws. -/
def ExchangeCEE.getOverallDuration (_cee : ExchangeCEE) : Option ℚ :=
  none

/-- `ExchangeCEE::getRemainingTime`: unconditionally throws. -/
def ExchangeCEE.getRemainingTime (_cee : ExchangeCEE) : Option ℚ :=
  none

/-- `ExchangeCEE::getProbableConsumption`: hover consumption for one time
unit with method index 1 (the `fromMethod` argument is not forwarded), with
the usual assertion; the non-normalized call only logs a warning and still
returns the same figure. -/
def ExchangeCEE.getProbableConsumption (env : Env) (_cee : ExchangeCEE)
    (_normalized : Bool) (_fromMethod : ℤ) : Option ℚ :=
  let duration : ℚ := 1
  let completeConsumption := env.getHoverConsumption duration 1
  if 0 ≤ completeConsumption ∧ completeConsumption / duration < 1000 then
    some completeConsumption
  else
    none

/-! ## IdleCEE methods -/

/-- `IdleCEE::IdleCEE(node, command)`: origin and target both set to the
current node position. -/
def IdleCEE.construct (node : Node) (cmd : IdleCommand) : IdleCEE :=
  { command := some cmd
    x0 := node.x, y0 := node.y, z0 := node.z
    x1 := node.x, y1 := node.y, z1 := node.z
    consumptionPerSecond := 0
    commandCompleted := false
    partOfMission := true
    noReplacementNeeded := false }

/-- `IdleCEE::isCommandCompleted`: the latch only. -/
def IdleCEE.isCommandCompleted (cee : IdleCEE) : Bool :=
  cee.commandCompleted

/-- `IdleCEE::isCommandCompleted` with the (unchanged) post-call state. -/
def IdleCEE.isCommandCompletedRun (cee : IdleCEE) : Bool × IdleCEE :=
  (cee.isCommandCompleted, cee)

/-- `IdleCEE::initializeCEE`: zero consumption rate; no check of the bound
command. -/
def IdleCEE.initializeCEE (_env : Env) (cee : IdleCEE) : Option IdleCEE :=
  some { cee with consumptionPerSecond := 0 }

/-- `IdleCEE::getOverallDuration`: unconditionally throws. -/
def IdleCEE.getOverallDuration (_cee : IdleCEE) : Option ℚ :=
  none

/-- `IdleCEE::getRemainingTime`: unconditionally throws. -/
def IdleCEE.getRemainingTime (_cee : IdleCEE) : Option ℚ :=
  none

/-- `IdleCEE::getProbableConsumption`: always 0. -/
def IdleCEE.getProbableConsumption (_cee : IdleCEE)
    (_normalized : Bool) (_fromMethod : ℤ) : Option ℚ :=
  some 0

/-! ## ExchangeCEE exit action -/

/-- `ExchangeCEE::performExitActions`: when a recharge was requested, locate
the nearest charging node, build a Waypoint engine toward it (non-mission, no
replacement needed) and initialize it to obtain the forecast duration and
consumption for the reservation message (the fire-and-forget message itself
is external and not part of the node state; the default arguments of
`getProbableConsumption` are Modelled from the spec: declared in the header,
they do not influence success of the assertion), build a Charge engine
retargeted at the charging node and an Idle engine located there (both
non-mission, no replacement needed), push Idle, then Charge, then Waypoint
onto the front of the queue, and clear the mission id. -/
def ExchangeCEE.performExitActions (env : Env) (cee : ExchangeCEE)
    (node : Node) : Option Node :=
  match cee.command with
  | none => none
  | some cmd =>
    if cmd.rechargeRequested then
      let cn := env.nearestCN node.x node.y node.z
      let goToChargingNodeCommand : WaypointCommand := ⟨cn.x, cn.y, cn.z⟩
      let goToChargingNodeCEE0 :=
        { WaypointCEE.construct node goToChargingNodeCommand with
            partOfMission := false, noReplacementNeeded := true }
      (goToChargingNodeCEE0.initializeCEE env).bind fun goToChargingNodeCEE =>
      let _goToChargingNodeDuration :=
        WaypointCEE.getOverallDuration env goToChargingNodeCEE
      (goToChargingNodeCEE.getProbableConsumption env true 0).bind fun _cons =>
      let chargeCommand : ChargeCommand := ⟨cn⟩
      let chargeCEE :=
        { ChargeCEE.construct node chargeCommand with
            x1 := cn.x, y1 := cn.y, z1 := cn.z
            partOfMission := false, noReplacementNeeded := true }
      let idleCEE :=
        { IdleCEE.construct node IdleCommand.mk with
            x1 := cn.x, y1 := cn.y, z1 := cn.z
            x0 := cn.x, y0 := cn.y, z0 := cn.z
            partOfMission := false, noReplacementNeeded := true }
      some { node with
              cees := CEE.waypoint goToChargingNodeCEE
                        :: CEE.charge chargeCEE
                        :: CEE.idle idleCEE
                        :: node.cees
              missionId := -1 }
    else
      some node

/-! ## Sanity-bound predicate and concrete fixtures -/

/-- The sanity bound of the spec on a consumption total `c` over a
duration `d`: the rate `c / d` lies in `[0, 1000)`. -/
def saneRate (c d : ℚ) : Prop :=
  0 ≤ c / d ∧ c / d < 1000

/-- A concrete environment used to instantiate the theorems: distances
evaluate to 0, every consumption figure is 1, the speed lookup returns 1 and
the nearest charging node sits at the origin. -/
def env₀ : Env :=
  { sqrt := fun _ => 0
    atan2Deg := fun _ _ => 0
    getSpeed := fun _ => 1
    getMovementConsumption := fun _ _ _ => 1
    getHoverConsumption := fun _ _ => 1
    predictNormConsumptionRandom := 1
    nearestCN := fun _ _ _ => ⟨0, 0, 0⟩ }

/-- A concrete node at the origin with a half-charged battery. -/
def node₀ : Node :=
  { x := 0, y := 0, z := 0
    yaw := 0, pitch := 0, climbAngle := 0, speed := 0
    battery := ⟨50, 100⟩
    cees := []
    missionId := 7 }

/-- A concrete waypoint engine whose completion latch is already set and
whose command pointer is absent. -/
def wpCee₀ : WaypointCEE :=
  { command := none
    x0 := 0, y0 := 0, z0 := 0, x1 := 0, y1 := 0, z1 := 0
    yaw := 0, pitch := 0, climbAngle := 0, speed := 1
    consumptionPerSecond := 0
    commandCompleted := true
    partOfMission := true
    noReplacementNeeded := false }

/-- A concrete takeoff engine from altitude 0 to altitude 10 whose command
pointer is absent. -/
def tkCee₀ : TakeoffCEE :=
  { command := none
    x0 := 0, y0 := 0, z0 := 0, x1 := 0, y1 := 0, z1 := 10
    pitch := 0, climbAngle := 0, speed := 1
    consumptionPerSecond := 0
    commandCompleted := false
    partOfMission := true
    noReplacementNeeded := false }

/-- A concrete hold command: hold for 30 seconds at the origin. -/
def hpCmd₀ : HoldPositionCommand :=
  { x := 0, y := 0, z := 0, holdSeconds := 30 }

/-- A concrete hold engine bound to `hpCmd₀`, not yet initialized. -/
def hpCee₀ : HoldPositionCEE :=
  { command := some hpCmd₀
    x0 := 0, y0 := 0, z0 := 0, x1 := 0, y1 := 0, z1 := 0
    holdPositionTill := 0
    consumptionPerSecond := 0
    commandCompleted := false
    partOfMission := true
    noReplacementNeeded := false }

/-- A concrete charge engine, already active with an energy snapshot of 10,
whose command pointer is absent. -/
def chargeCee₀ : ChargeCEE :=
  { command := none
    x0 := 0, y0 := 0, z0 := 0, x1 := 0, y1 := 0, z1 := 0
    active := true
    batteryRemainingExecutionStart := 10
    commandCompleted := false
    partOfMission := true
    noReplacementNeeded := false }

/-- A concrete exchange command requesting a recharge with a known peer. -/
def exCmd₀ : ExchangeCommand :=
  { rechargeRequested := true, otherNodeKnown := true }

/-- A concrete exchange engine bound to `exCmd₀`. -/
def exCee₀ : ExchangeCEE :=
  { command := some exCmd₀
    x0 := 0, y0 := 0, z0 := 0, x1 := 0, y1 := 0, z1 := 0
    consumptionPerSecond := 0
    commandCompleted := false
    partOfMission := true
    noReplacementNeeded := false }

/-- A concrete idle engine whose command pointer is absent. -/
def idleCee₀ : IdleCEE :=
  { command := none
    x0 := 0, y0 := 0, z0 := 0, x1 := 0, y1 := 0, z1 := 0
    consumptionPerSecond := 0
    commandCompleted := false
    partOfMission := true
    noReplacementNeeded := false }

/-! ## Claims -/

/-- C1: for every engine variant, `isCommandCompleted` mutates neither the
engine nor the node, and once a call has returned true (by its geometric or
battery condition or via the latch), a later call with no further state
mutation (same engine state, same node state, and for HoldPosition the same
clock reading) again returns true. -/
theorem isCommandCompleted_monotone :
    (∀ (cee : WaypointCEE) (node : Node),
      (cee.isCommandCompletedRun node).2 = (cee, node) ∧
      ((cee.isCommandCompletedRun node).1 = true →
        ((cee.isCommandCompletedRun node).2.1.isCommandCompletedRun
          (cee.isCommandCompletedRun node).2.2).1 = true)) ∧
    (∀ (cee : TakeoffCEE) (node : Node),
      (cee.isCommandCompletedRun node).2 = (cee, node) ∧
      ((cee.isCommandCompletedRun node).1 = true →
        ((cee.isCommandCompletedRun node).2.1.isCommandCompletedRun
          (cee.isCommandCompletedRun node).2.2).1 = true)) ∧
    (∀ (cee : HoldPositionCEE) (t : ℚ),
      (cee.isCommandCompletedRun t).2 = cee ∧
      ((cee.isCommandCompletedRun t).1 = some true →
        ((cee.isCommandCompletedRun t).2.isCommandCompletedRun t).1 =
          some true)) ∧
    (∀ (cee : ChargeCEE) (node : Node),
      (cee.isCommandCompletedRun node).2 = (cee, node) ∧
      ((cee.isCommandCompletedRun node).1 = true →
        ((cee.isCommandCompletedRun node).2.1.isCommandCompletedRun
          (cee.isCommandCompletedRun node).2.2).1 = true)) ∧
    (∀ (cee : ExchangeCEE),
      cee.isCommandCompletedRun.2 = cee ∧
      (cee.isCommandCompletedRun.1 = true →
        cee.isCommandCompletedRun.2.isCommandCompletedRun.1 = true)) ∧
    (∀ (cee : IdleCEE),
      cee.isCommandCompletedRun.2 = cee ∧
      (cee.isCommandCompletedRun.1 = true →
        cee.isCommandCompletedRun.2.isCommandCompletedRun.1 = true)) :=
  ⟨fun _ _ => ⟨rfl, fun h => h⟩,
   fun _ _ => ⟨rfl, fun h => h⟩,
   fun _ _ => ⟨rfl, fun h => h⟩,
   fun _ _ => ⟨rfl, fun h => h⟩,
   fun _ => ⟨rfl, fun h => h⟩,
   fun _ => ⟨rfl, fun h => h⟩⟩

/-- Witness for C1: a waypoint engine with its completion latch set reports
completion, and re-querying on the unchanged state reports it again. -/
theorem isCommandCompleted_monotone_witness :
    (wpCee₀.isCommandCompletedRun node₀).1 = true ∧
    ((wpCee₀.isCommandCompletedRun node₀).2.1.isCommandCompletedRun
      (wpCee₀.isCommandCompletedRun node₀).2.2).1 = true := by
  have h := isCommandCompleted_monotone.1 wpCee₀ node₀
  have hq : (wpCee₀.isCommandCompletedRun node₀).1 = true := by
    simp [WaypointCEE.isCommandCompletedRun, WaypointCEE.isCommandCompleted,
      wpCee₀]
  exact ⟨hq, h.2 hq⟩

/-- Counterexample to C2 as stated: engines other than Waypoint do not fail
when the bound directive is absent; a takeoff engine and a charge engine
with no command both initialize successfully. -/
theorem initializeCEE_absent_command_counterexample :
    tkCee₀.command = none ∧
    (TakeoffCEE.initializeCEE env₀ tkCee₀).isSome = true ∧
    chargeCee₀.command = none ∧
    ChargeCEE.initializeCEE env₀ chargeCee₀ = some chargeCee₀ :=
  ⟨rfl, rfl, rfl, rfl⟩

/-- C2 (amended): `initializeCEE` fails on an absent directive only for the
Waypoint engine (explicit check) and the HoldPosition engine (which
dereferences the directive for its hold duration); with the directive
present both succeed and compute the derived kinematics and energy
parameters. Takeoff, Charge, Exchange and Idle engines initialize
successfully whether or not the directive is present. -/
theorem initializeCEE_absent_command_amended
    (env : Env) (t : ℚ)
    (w : WaypointCEE) (tk : TakeoffCEE) (hp : HoldPositionCEE)
    (c : ChargeCEE) (e : ExchangeCEE) (i : IdleCEE) :
    (w.command = none → WaypointCEE.initializeCEE env w = none) ∧
    (∀ cmd, w.command = some cmd →
      ∃ w2, WaypointCEE.initializeCEE env w = some w2 ∧
        w2.speed = env.getSpeed w2.climbAngle ∧
        w2.pitch = -w2.climbAngle ∧
        w2.consumptionPerSecond = env.predictNormConsumptionRandom) ∧
    (hp.command = none → HoldPositionCEE.initializeCEE env t hp = none) ∧
    (∀ cmd, hp.command = some cmd →
      HoldPositionCEE.initializeCEE env t hp =
        some { hp with
                holdPositionTill := t + cmd.holdSeconds
                consumptionPerSecond := env.predictNormConsumptionRandom }) ∧
    (TakeoffCEE.initializeCEE env tk).isSome = true ∧
    (ChargeCEE.initializeCEE env c).isSome = true ∧
    (ExchangeCEE.initializeCEE env e).isSome = true ∧
    (IdleCEE.initializeCEE env i).isSome = true := by
  refine ⟨?_, ?_, ?_, ?_, rfl, rfl, rfl, rfl⟩
  · intro h
    simp only [WaypointCEE.initializeCEE, h]
  · intro cmd h
    simp only [WaypointCEE.initializeCEE, h]
    exact ⟨_, rfl, rfl, rfl, rfl⟩
  · intro h
    simp only [HoldPositionCEE.initializeCEE, h]
  · intro cmd h
    simp only [HoldPositionCEE.initializeCEE, h]

/-- Witness for C2 (amended): with the directive absent the waypoint
initialization fails, and with the 30-second hold directive present the
hold initialization succeeds and sets the deadline. -/
theorem initializeCEE_absent_command_amended_witness :
    wpCee₀.command = none ∧
    hpCee₀.command = some hpCmd₀ ∧
    WaypointCEE.initializeCEE env₀ wpCee₀ = none ∧
    HoldPositionCEE.initializeCEE env₀ 0 hpCee₀ =
      some { hpCee₀ with
              holdPositionTill := 0 + hpCmd₀.holdSeconds
              consumptionPerSecond := env₀.predictNormConsumptionRandom } := by
  have h := initializeCEE_absent_command_amended env₀ 0 wpCee₀ tkCee₀ hpCee₀
    chargeCee₀ exCee₀ idleCee₀
  exact ⟨rfl, rfl, h.1 rfl, h.2.2.2.1 hpCmd₀ rfl⟩

/-- C7: on Charge, Exchange and Idle engines, both `getOverallDuration` and
`getRemainingTime` throw unconditionally, in every engine state. -/
theorem charge_exchange_idle_duration_queries_fail
    (c : ChargeCEE) (e : ExchangeCEE) (i : IdleCEE) :
    ChargeCEE.getOverallDuration c = none ∧
    ChargeCEE.getRemainingTime c = none ∧
    ExchangeCEE.getOverallDuration e = none ∧
    ExchangeCEE.getRemainingTime e = none ∧
    IdleCEE.getOverallDuration i = none ∧
    IdleCEE.getRemainingTime i = none :=
  ⟨rfl, rfl, rfl, rfl, rfl, rfl⟩

/-- C9: `ChargeCEE::updateState` changes nothing for any elapsed time: the
engine state and the node (position, orientation, speed, battery, queue)
come back exactly as they were. -/
theorem charge_updateState_noop (cee : ChargeCEE) (node : Node) (dt : ℚ) :
    ChargeCEE.updateState cee node dt = (cee, node) :=
  rfl

/-- C10: when the origin-to-target distance of a waypoint leg is below the
1e-10 epsilon, `getProbableConsumption` returns exactly 0 for every value of
`normalized` and `fromMethod` and for every environment with that distance,
so the consumption model is never consulted and the assertion cannot fire. -/
theorem waypoint_probable_consumption_epsilon_zero
    (env : Env) (cee : WaypointCEE)
    (h : cee.legDistance env < eps)
    (normalized : Bool) (fromMethod : ℤ) :
    WaypointCEE.getProbableConsumption env cee normalized fromMethod = some 0 := by
  simp only [WaypointCEE.getProbableConsumption]
  rw [if_pos h]

/-- Witness for C10: the fixture leg distance evaluates below the epsilon and
the probable consumption is 0. -/
theorem waypoint_probable_consumption_epsilon_zero_witness :
    wpCee₀.legDistance env₀ < eps ∧
    WaypointCEE.getProbableConsumption env₀ wpCee₀ false 2 = some 0 := by
  have hd : wpCee₀.legDistance env₀ < eps := by
    norm_num [WaypointCEE.legDistance, env₀, eps]
  exact ⟨hd, waypoint_probable_consumption_epsilon_zero env₀ wpCee₀ hd false 2⟩

/-- The result of initializing the fixture hold engine at clock value 0. -/
def hpInit₀ : HoldPositionCEE :=
  { hpCee₀ with
      holdPositionTill := 0 + hpCmd₀.holdSeconds
      consumptionPerSecond := env₀.predictNormConsumptionRandom }

/-- C5: a hold engine initialized at clock `t0` with hold duration `d` has
deadline `t0 + d`; its completion check throws past the deadline, is true at
the deadline, is true before the deadline exactly when the latch is set, and
is false before the deadline with the latch clear; `getOverallDuration`
returns `d` and `getRemainingTime` returns deadline minus current time. -/
theorem holdPosition_completion_and_timing
    (env : Env) (t0 : ℚ) (cee cee2 : HoldPositionCEE)
    (cmd : HoldPositionCommand)
    (hc : cee.command = some cmd)
    (hinit : HoldPositionCEE.initializeCEE env t0 cee = some cee2) :
    cee2.holdPositionTill = t0 + cmd.holdSeconds ∧
    (∀ t, t0 + cmd.holdSeconds < t → cee2.isCommandCompleted t = none) ∧
    cee2.isCommandCompleted (t0 + cmd.holdSeconds) = some true ∧
    (∀ t, t ≤ t0 + cmd.holdSeconds → cee2.commandCompleted = true →
      cee2.isCommandCompleted t = some true) ∧
    (∀ t, t < t0 + cmd.holdSeconds → cee2.commandCompleted = false →
      cee2.isCommandCompleted t = some false) ∧
    HoldPositionCEE.getOverallDuration cee2 = some cmd.holdSeconds ∧
    (∀ t, HoldPositionCEE.getRemainingTime cee2 t =
      t0 + cmd.holdSeconds - t) := by
  simp only [HoldPositionCEE.initializeCEE, hc, Option.some.injEq] at hinit
  subst hinit
  refine ⟨rfl, ?_, ?_, ?_, ?_, ?_, fun t => rfl⟩
  · intro t ht
    simp only [HoldPositionCEE.isCommandCompleted]
    rw [if_pos ht]
  · simp only [HoldPositionCEE.isCommandCompleted]
    rw [if_neg (lt_irrefl _)]
    simp
  · intro t ht hcc
    simp only [HoldPositionCEE.isCommandCompleted] at hcc ⊢
    rw [if_neg (not_lt.mpr ht), hcc]
    simp
  · intro t ht hcc
    simp only [HoldPositionCEE.isCommandCompleted] at hcc ⊢
    rw [if_neg (not_lt.mpr ht.le), hcc, decide_eq_false (ne_of_lt ht)]
    simp
  · simp only [HoldPositionCEE.getOverallDuration, hc]

/-- Witness for C5: the fixture hold engine (30-second hold, initialized at
clock 0) throws at clock 31, completes at clock 30, is incomplete at clock 7
and reports 23 seconds remaining there, with overall duration 30. -/
theorem holdPosition_completion_and_timing_witness :
    hpCee₀.command = some hpCmd₀ ∧
    HoldPositionCEE.initializeCEE env₀ 0 hpCee₀ = some hpInit₀ ∧
    hpInit₀.isCommandCompleted 31 = none ∧
    hpInit₀.isCommandCompleted 30 = some true ∧
    hpInit₀.isCommandCompleted 7 = some false ∧
    HoldPositionCEE.getOverallDuration hpInit₀ = some 30 ∧
    HoldPositionCEE.getRemainingTime hpInit₀ 7 = 23 := by
  have h := holdPosition_completion_and_timing env₀ 0 hpCee₀ hpInit₀ hpCmd₀
    rfl rfl
  refine ⟨rfl, rfl, h.2.1 31 (by norm_num [hpCmd₀]), ?_, ?_, ?_, ?_⟩
  · have h30 := h.2.2.1
    simpa [hpCmd₀] using h30
  · exact h.2.2.2.2.1 7 (by norm_num [hpCmd₀]) rfl
  · have hdur := h.2.2.2.2.2.1
    simpa [hpCmd₀] using hdur
  · have hrem := h.2.2.2.2.2.2 7
    rw [hrem]
    norm_num [hpCmd₀]

/-- C6: `ChargeCEE::getConsumptionTotal` throws when the engine was never
activated; once active, with start snapshot E0 and current remaining energy
E1, it returns `-(E1 - E0)` when `E1 > E0` and stops on the assertion
otherwise. -/
theorem charge_getConsumptionTotal_spec (cee : ChargeCEE) (node : Node) :
    (cee.active = false → ChargeCEE.getConsumptionTotal cee node = none) ∧
    (cee.active = true →
      cee.batteryRemainingExecutionStart < node.battery.remaining →
      ChargeCEE.getConsumptionTotal cee node =
        some (-(node.battery.remaining -
          cee.batteryRemainingExecutionStart))) ∧
    (cee.active = true →
      node.battery.remaining ≤ cee.batteryRemainingExecutionStart →
      ChargeCEE.getConsumptionTotal cee node = none) := by
  refine ⟨fun h => ?_, fun h hlt => ?_, fun h hle => ?_⟩
  · simp [ChargeCEE.getConsumptionTotal, h]
  · simp only [ChargeCEE.getConsumptionTotal, h]
    rw [if_neg (by simp), if_pos (sub_pos.mpr hlt)]
  · simp only [ChargeCEE.getConsumptionTotal, h]
    rw [if_neg (by simp), if_neg (not_lt.mpr (sub_nonpos.mpr hle))]

/-- Witness for C6: the fixture charge engine is active with snapshot 10 and
the node battery holds 50, so the reported consumption is the negated gain. -/
theorem charge_getConsumptionTotal_spec_witness :
    chargeCee₀.active = true ∧
    chargeCee₀.batteryRemainingExecutionStart < node₀.battery.remaining ∧
    ChargeCEE.getConsumptionTotal chargeCee₀ node₀ =
      some (-(node₀.battery.remaining -
        chargeCee₀.batteryRemainingExecutionStart)) := by
  have hlt : chargeCee₀.batteryRemainingExecutionStart <
      node₀.battery.remaining := by
    norm_num [chargeCee₀, node₀]
  exact ⟨rfl, hlt, (charge_getConsumptionTotal_spec chargeCee₀ node₀).2.1
    rfl hlt⟩

/-- C8: initializing a takeoff engine succeeds, fixes the pitch to 0 and the
climb angle to +90 when the target altitude is above the origin altitude and
to -90 when it is below, and resolves the speed for that climb angle; a
takeoff from altitude 0 to altitude 10 then has overall duration 10 divided
by the resolved speed. -/
theorem takeoff_climb_angle_and_duration (env : Env) (cee : TakeoffCEE) :
    ∃ cee2, TakeoffCEE.initializeCEE env cee = some cee2 ∧
      cee2.pitch = 0 ∧
      (cee.z0 < cee.z1 → cee2.climbAngle = 90) ∧
      (cee.z1 < cee.z0 → cee2.climbAngle = -90) ∧
      cee2.speed = env.getSpeed cee2.climbAngle ∧
      (cee.z0 = 0 → cee.z1 = 10 →
        TakeoffCEE.getOverallDuration cee2 = 10 / cee2.speed) := by
  refine ⟨{ cee with
              pitch := 0
              climbAngle := if cee.z0 < cee.z1 then 90 else -90
              speed := env.getSpeed (if cee.z0 < cee.z1 then 90 else -90)
              consumptionPerSecond := env.predictNormConsumptionRandom },
          rfl, rfl, fun h => ?_, fun h => ?_, rfl, fun h0 h10 => ?_⟩
  · exact if_pos h
  · exact if_neg (lt_asymm h)
  · simp only [TakeoffCEE.getOverallDuration, TakeoffCEE.legDuration]
    rw [h0, h10]
    norm_num

/-- Witness for C8: the fixture takeoff engine climbs from altitude 0 to 10,
its initialized climb angle is +90, its pitch 0, and its overall duration is
10 over the resolved speed. -/
theorem takeoff_climb_angle_and_duration_witness :
    tkCee₀.z0 = 0 ∧ tkCee₀.z1 = 10 ∧ tkCee₀.z0 < tkCee₀.z1 ∧
    ((TakeoffCEE.initializeCEE env₀ tkCee₀).getD tkCee₀).climbAngle = 90 ∧
    ((TakeoffCEE.initializeCEE env₀ tkCee₀).getD tkCee₀).pitch = 0 ∧
    TakeoffCEE.getOverallDuration
        ((TakeoffCEE.initializeCEE env₀ tkCee₀).getD tkCee₀) =
      10 / ((TakeoffCEE.initializeCEE env₀ tkCee₀).getD tkCee₀).speed := by
  obtain ⟨c2, hinit, hpitch, hup, _hdown, _hspeed, hdur⟩ :=
    takeoff_climb_angle_and_duration env₀ tkCee₀
  have hz : tkCee₀.z0 < tkCee₀.z1 := by norm_num [tkCee₀]
  rw [hinit]
  simp only [Option.getD_some]
  exact ⟨rfl, rfl, hz, hup hz, hpitch, hdur rfl rfl⟩

/-- The epsilon of the source is positive. -/
theorem eps_pos : (0 : ℚ) < eps := by norm_num [eps]

/-- C4: when the exit action of an Exchange engine with recharge requested
completes, it prepends exactly three newly constructed engines to the front
of the queue — a Waypoint engine toward the charging node, then a Charge
engine, then an Idle engine, in that running order — each flagged as not
part of the mission and as needing no replacement, and it clears the active
mission id. -/
theorem exchange_exit_enqueues_three
    (env : Env) (cee : ExchangeCEE) (node : Node) (cmd : ExchangeCommand)
    (hc : cee.command = some cmd) (hr : cmd.rechargeRequested = true)
    (node2 : Node)
    (hex : ExchangeCEE.performExitActions env cee node = some node2) :
    node2.missionId = -1 ∧
    ∃ g ch idl,
      node2.cees =
        CEE.waypoint g :: CEE.charge ch :: CEE.idle idl :: node.cees ∧
      g.partOfMission = false ∧ g.noReplacementNeeded = true ∧
      ch.partOfMission = false ∧ ch.noReplacementNeeded = true ∧
      idl.partOfMission = false ∧ idl.noReplacementNeeded = true := by
  simp only [ExchangeCEE.performExitActions, hc, hr, if_true] at hex
  rw [Option.bind_eq_some] at hex
  obtain ⟨g, hg, hex⟩ := hex
  rw [Option.bind_eq_some] at hex
  obtain ⟨cv, _hcv, hex⟩ := hex
  rw [Option.some.injEq] at hex
  subst hex
  have hgflags : g.partOfMission = false ∧ g.noReplacementNeeded = true := by
    simp only [WaypointCEE.initializeCEE, WaypointCEE.construct,
      Option.some.injEq] at hg
    subst hg
    exact ⟨rfl, rfl⟩
  exact ⟨rfl, g, _, _, rfl, hgflags.1, hgflags.2, rfl, rfl, rfl, rfl⟩

/-- Witness for C4: on the concrete fixtures, the exit action succeeds and
the resulting node has its mission id cleared. -/
theorem exchange_exit_enqueues_three_witness :
    exCee₀.command = some exCmd₀ ∧
    exCmd₀.rechargeRequested = true ∧
    ((ExchangeCEE.performExitActions env₀ exCee₀ node₀).getD node₀).missionId
      = -1 := by
  have hsome : (ExchangeCEE.performExitActions env₀ exCee₀ node₀).isSome
      = true := by
    norm_num [ExchangeCEE.performExitActions, exCee₀, exCmd₀,
      WaypointCEE.initializeCEE, WaypointCEE.construct,
      WaypointCEE.getProbableConsumption, WaypointCEE.legDistance, env₀,
      node₀, eps]
  have hex : ExchangeCEE.performExitActions env₀ exCee₀ node₀ =
      some ((ExchangeCEE.performExitActions env₀ exCee₀ node₀).getD node₀) := by
    obtain ⟨v, hv⟩ := Option.isSome_iff_exists.mp hsome
    rw [hv, Option.getD_some]
  have h := exchange_exit_enqueues_three env₀ exCee₀ node₀ exCmd₀ rfl rfl _ hex
  exact ⟨rfl, rfl, h.1⟩

/-- C3: for every engine variant, a consumption figure returned by
`getProbableConsumption` has passed the sanity assertion, so the underlying
rate `consumption / duration` lies in `[0, 1000)` (for Waypoint a returned
figure is either the epsilon short-circuit 0 or assertion-checked; Charge
and Idle return 0 without consulting the model), and whenever the rate lies
outside the bound, the assertion stops the call path and nothing is
returned. -/
theorem getProbableConsumption_sanity_bound
    (env : Env) (normalized : Bool) (fromMethod : ℤ)
    (w : WaypointCEE) (hw : 0 < w.speed)
    (tk : TakeoffCEE) (htk : 0 < tk.legDuration)
    (hp : HoldPositionCEE) (hpc : HoldPositionCommand)
    (hhp : hp.command = some hpc) (hdur : 0 < hpc.holdSeconds)
    (e : ExchangeCEE) (c : ChargeCEE) (i : IdleCEE) :
    (∀ v,
      WaypointCEE.getProbableConsumption env w normalized fromMethod = some v →
      v = 0 ∨
        saneRate (w.legConsumption env fromMethod) (w.legDuration env)) ∧
    (eps ≤ w.legDistance env →
      ¬saneRate (w.legConsumption env fromMethod) (w.legDuration env) →
      WaypointCEE.getProbableConsumption env w normalized fromMethod = none) ∧
    (∀ v,
      TakeoffCEE.getProbableConsumption env tk normalized fromMethod = some v →
      saneRate (tk.legConsumption env fromMethod) tk.legDuration) ∧
    (¬saneRate (tk.legConsumption env fromMethod) tk.legDuration →
      TakeoffCEE.getProbableConsumption env tk normalized fromMethod = none) ∧
    (∀ v,
      HoldPositionCEE.getProbableConsumption env hp normalized fromMethod
        = some v →
      saneRate (env.getHoverConsumption hpc.holdSeconds fromMethod)
        hpc.holdSeconds) ∧
    (¬saneRate (env.getHoverConsumption hpc.holdSeconds fromMethod)
        hpc.holdSeconds →
      HoldPositionCEE.getProbableConsumption env hp normalized fromMethod
        = none) ∧
    (∀ v,
      ExchangeCEE.getProbableConsumption env e normalized fromMethod = some v →
      saneRate (env.getHoverConsumption 1 1) 1) ∧
    (¬saneRate (env.getHoverConsumption 1 1) 1 →
      ExchangeCEE.getProbableConsumption env e normalized fromMethod = none) ∧
    ChargeCEE.getProbableConsumption c normalized fromMethod = some 0 ∧
    IdleCEE.getProbableConsumption i normalized fromMethod = some 0 := by
  refine ⟨?_, ?_, ?_, ?_, ?_, ?_, ?_, ?_, rfl, rfl⟩
  · intro v hv
    simp only [WaypointCEE.getProbableConsumption] at hv
    by_cases hd : w.legDistance env < eps
    · rw [if_pos hd] at hv
      exact Or.inl (Option.some.inj hv).symm
    · rw [if_neg hd] at hv
      by_cases ha : 0 < w.legConsumption env fromMethod ∧
          w.legConsumption env fromMethod / (w.legDistance env / w.speed)
            < 1000
      · right
        have hdd : 0 < w.legDistance env / w.speed :=
          div_pos (lt_of_lt_of_le eps_pos (not_lt.mp hd)) hw
        simp only [saneRate, WaypointCEE.legDuration]
        exact ⟨(div_pos ha.1 hdd).le, ha.2⟩
      · rw [if_neg ha] at hv
        exact absurd hv (by simp)
  · intro hdist hns
    simp only [WaypointCEE.getProbableConsumption]
    rw [if_neg (not_lt.mpr hdist)]
    refine if_neg fun ha => hns ?_
    have hdd : 0 < w.legDistance env / w.speed :=
      div_pos (lt_of_lt_of_le eps_pos hdist) hw
    simp only [saneRate, WaypointCEE.legDuration]
    exact ⟨(div_pos ha.1 hdd).le, ha.2⟩
  · intro v hv
    simp only [TakeoffCEE.getProbableConsumption] at hv
    by_cases ha : 0 ≤ tk.legConsumption env fromMethod ∧
        tk.legConsumption env fromMethod / tk.legDuration < 1000
    · simp only [saneRate]
      exact ⟨div_nonneg ha.1 htk.le, ha.2⟩
    · rw [if_neg ha] at hv
      exact absurd hv (by simp)
  · intro hns
    simp only [TakeoffCEE.getProbableConsumption]
    refine if_neg fun ha => hns ?_
    simp only [saneRate]
    exact ⟨div_nonneg ha.1 htk.le, ha.2⟩
  · intro v hv
    simp only [HoldPositionCEE.getProbableConsumption, hhp] at hv
    by_cases ha : 0 ≤ env.getHoverConsumption hpc.holdSeconds fromMethod ∧
        env.getHoverConsumption hpc.holdSeconds fromMethod / hpc.holdSeconds
          < 1000
    · simp only [saneRate]
      exact ⟨div_nonneg ha.1 hdur.le, ha.2⟩
    · rw [if_neg ha] at hv
      exact absurd hv (by simp)
  · intro hns
    simp only [HoldPositionCEE.getProbableConsumption, hhp]
    refine if_neg fun ha => hns ?_
    simp only [saneRate]
    exact ⟨div_nonneg ha.1 hdur.le, ha.2⟩
  · intro v hv
    simp only [ExchangeCEE.getProbableConsumption] at hv
    by_cases ha : 0 ≤ env.getHoverConsumption 1 1 ∧
        env.getHoverConsumption 1 1 / 1 < 1000
    · simp only [saneRate]
      exact ⟨div_nonneg ha.1 zero_le_one, ha.2⟩
    · rw [if_neg ha] at hv
      exact absurd hv (by simp)
  · intro hns
    simp only [ExchangeCEE.getProbableConsumption]
    refine if_neg fun ha => hns ?_
    simp only [saneRate]
    exact ⟨div_nonneg ha.1 zero_le_one, ha.2⟩

/-- Witness for C3: the fixture engines satisfy the validity hypotheses
(positive speed, positive leg duration, bound 30-second hold command), and
the Charge and Idle figures are 0, which trivially meets the bound. -/
theorem getProbableConsumption_sanity_bound_witness :
    (0 : ℚ) < wpCee₀.speed ∧
    (0 : ℚ) < tkCee₀.legDuration ∧
    hpCee₀.command = some hpCmd₀ ∧
    (0 : ℚ) < hpCmd₀.holdSeconds ∧
    ChargeCEE.getProbableConsumption chargeCee₀ true 0 = some 0 ∧
    IdleCEE.getProbableConsumption idleCee₀ true 0 = some 0 := by
  have hw : (0 : ℚ) < wpCee₀.speed := by norm_num [wpCee₀]
  have htk : (0 : ℚ) < tkCee₀.legDuration := by
    norm_num [TakeoffCEE.legDuration, tkCee₀, abs_pos]
  have hdur : (0 : ℚ) < hpCmd₀.holdSeconds := by norm_num [hpCmd₀]
  have h := getProbableConsumption_sanity_bound env₀ true 0 wpCee₀ hw tkCee₀
    htk hpCee₀ hpCmd₀ rfl hdur exCee₀ chargeCee₀ idleCee₀
  exact ⟨hw, htk, rfl, hdur, h.2.2.2.2.2.2.2.2.1, h.2.2.2.2.2.2.2.2.2⟩
